import Mathlib

/-!
# Verification of the ride-hailing app's pricing and ride-lifecycle logic

Shallow embedding of the pricing calculator (`src/utils/pricing.ts`) and of
the ride-lifecycle handlers (`src/pages/DriverHome.tsx`, the ride-status page,
`src/pages/RideRequest.tsx`) of the ride-hailing repository, together with
theorems checking the natural-language specification against the code.

JavaScript numbers are modelled as exact rationals (`ℚ`); `Math.round` is
round-half-up (`⌊x + 1/2⌋`), which matches JS `Math.round` on all rationals.
`Date` values are modelled as a record of their calendar fields; the code only
ever reads `getHours` and `getMinutes`.
-/

namespace RideApp

/-! ## JavaScript primitives used by the code -/

/-- JS `Math.round`: round half up (`Math.round(x) = ⌊x + 0.5⌋` for every
finite JS number). -/
def jsMathRound (x : ℚ) : ℤ := Int.floor (x + 1/2)

/-- JS `parseInt(s, 10)` restricted to the strings that occur here
(no sign, no leading whitespace): the longest digit prefix, `none` for `NaN`
(no leading digit). -/
def parseIntChars (cs : List Char) : Option ℕ :=
  let ds := cs.takeWhile Char.isDigit
  if ds.isEmpty then none
  else some (ds.foldl (fun a c => a * 10 + (c.toNat - 48)) 0)

/-- JS `s.split(sep)` for a one-character separator, over the string's
character list (`"a:b".split(':') = ["a","b"]`, `":".split(':') = ["",""]`). -/
def jsSplitChars (sep : Char) : List Char → List (List Char)
  | [] => [[]]
  | c :: cs =>
    match jsSplitChars sep cs with
    | r :: rs => if c = sep then [] :: r :: rs else (c :: r) :: rs
    | [] => if c = sep then [[], []] else [[c]]

/-- A JS `Date`, reduced to the calendar fields the app could observe.
`getHours`/`getMinutes` below mirror the `Date` API. -/
structure JSDate where
  hours : ℕ
  minutes : ℕ
  seconds : ℕ
  milliseconds : ℕ
  day : ℕ
  month : ℕ
  year : ℤ
deriving DecidableEq

def JSDate.getHours (d : JSDate) : ℕ := d.hours

def JSDate.getMinutes (d : JSDate) : ℕ := d.minutes

/-! ## Data model (`src/types/vehicle.ts`) -/

/-- One peak-hour window, stored as `"HH:mm"` strings (field `end` of the
source, renamed: `end` is a Lean keyword). -/
structure PeakHourPeriod where
  start : String
  endStr : String
deriving DecidableEq

structure DynamicPricing where
  rainMultiplier : ℚ
  peakHoursMultiplier : ℚ
  peakHours : List PeakHourPeriod
deriving DecidableEq

structure VehicleCategory where
  basePrice : ℚ
  pricePerKm : ℚ
  minPrice : ℚ
  dynamicPricing : DynamicPricing
deriving DecidableEq

/-- The `PricingFactors` record of `src/utils/pricing.ts` (`distance` in
meters). -/
structure PricingFactors where
  isRaining : Bool
  currentTime : JSDate
  distance : ℚ
deriving DecidableEq

/-! ## Pricing calculator (`src/utils/pricing.ts`) -/

/-- Source `calculatePrice(distanceInMeters, pricePerKm, basePrice)`:
`Math.round((basePrice + (distanceInMeters/1000) * pricePerKm) * 100) / 100`. -/
def calculatePrice (distanceInMeters pricePerKm basePrice : ℚ) : ℚ :=
  let distanceInKm := distanceInMeters / 1000
  let totalPrice := basePrice + distanceInKm * pricePerKm
  (jsMathRound (totalPrice * 100) : ℚ) / 100

/-- Model of `parseInt(s.split(':')[0]) * 60 + parseInt(s.split(':')[1])` of the
source's peak-hour test; `none` models the `NaN` outcome (missing part or
non-numeric part; every comparison against `NaN` is false). -/
def hhmmToMinutes (s : String) : Option ℕ := do
  let parts := jsSplitChars ':' s.data
  let h ← parts.get? 0 >>= parseIntChars
  let m ← parts.get? 1 >>= parseIntChars
  pure (h * 60 + m)

/-- The body of the `some(...)` callback of `calculateDynamicPrice`:
`currentMinutesTotal >= startMinutes && currentMinutesTotal <= endMinutes`,
false whenever either bound is `NaN`. -/
def periodContains (currentMinutesTotal : ℕ) (p : PeakHourPeriod) : Bool :=
  match hhmmToMinutes p.start, hhmmToMinutes p.endStr with
  | some startMinutes, some endMinutes =>
      decide (startMinutes ≤ currentMinutesTotal ∧ currentMinutesTotal ≤ endMinutes)
  | _, _ => false

/-- Source `calculateDynamicPrice(category, { isRaining, currentTime, distance })`,
line by line from `src/utils/pricing.ts`. -/
def calculateDynamicPrice (category : VehicleCategory) (f : PricingFactors) : ℚ :=
  let finalPrice := category.basePrice
  let distanceInKm := f.distance / 1000
  let finalPrice := finalPrice + distanceInKm * category.pricePerKm
  let currentHour := f.currentTime.getHours
  let currentMinutes := f.currentTime.getMinutes
  let currentMinutesTotal := currentHour * 60 + currentMinutes
  let isPeakHour := category.dynamicPricing.peakHours.any (periodContains currentMinutesTotal)
  let finalPrice :=
    if isPeakHour then finalPrice * category.dynamicPricing.peakHoursMultiplier else finalPrice
  let finalPrice :=
    if f.isRaining then finalPrice * category.dynamicPricing.rainMultiplier else finalPrice
  let finalPrice := max finalPrice category.minPrice
  (jsMathRound (finalPrice * 100) : ℚ) / 100

/-! ## Spec-side pricing definitions (following the specification's words) -/

/-- Rounding to exactly 2 decimal places, standard half-up. -/
def round2 (x : ℚ) : ℚ := (jsMathRound (x * 100) : ℚ) / 100

/-- A peak-hour window as the spec compares it: both ends converted to
minutes-since-midnight. -/
structure SpecWindow where
  startM : ℕ
  endM : ℕ
deriving DecidableEq

/-- Spec: the current time, as minutes-since-midnight, falls within some
configured window, inclusive on both ends. -/
def specIsPeak (cur : ℕ) (ws : List SpecWindow) : Bool :=
  ws.any fun w => decide (w.startM ≤ cur ∧ cur ≤ w.endM)

/-- The spec's formula for the richer variant: round-to-2-decimals of
`max(minPrice, (basePrice + (distance/1000) · pricePerKm) · P · R)` with
`P` the peak multiplier when the HH:mm time lies in some window (else 1)
and `R` the rain multiplier when raining (else 1), peak applied first. -/
def dynamicPriceSpec (category : VehicleCategory) (ws : List SpecWindow)
    (f : PricingFactors) : ℚ :=
  let cur := f.currentTime.hours * 60 + f.currentTime.minutes
  let P := if specIsPeak cur ws then category.dynamicPricing.peakHoursMultiplier else 1
  let R := if f.isRaining then category.dynamicPricing.rainMultiplier else 1
  round2 (max category.minPrice
    ((category.basePrice + f.distance / 1000 * category.pricePerKm) * P * R))

/-- The spec's formula for the simple variant:
`basePrice + (distanceKm · perKmRate)`, rounded to 2 decimal places. -/
def calculatePriceSpec (d r b : ℚ) : ℚ := round2 (b + d / 1000 * r)

/-! ## Ride lifecycle (`DriverHome.tsx`, the ride-status page) -/

inductive RideStatus
  | pending
  | accepted
  | inProgress
  | completed
  | cancelled
deriving DecidableEq

/-- A ride document, restricted to the fields the lifecycle handlers read or
write. `driverId`/`driver` are `none` for JS `null`; the embedded driver
snapshot is abstracted to the driver's uid; timestamps are abstract ticks. -/
structure RideDoc where
  status : RideStatus
  driverId : Option String
  driver : Option String
  acceptedAt : Option ℕ
  startedAt : Option ℕ
  completedAt : Option ℕ
  completedBy : Option String
  cancelledAt : Option ℕ
  cancelledBy : Option String
deriving DecidableEq

/-- The three collections a single ride's document can live in:
`activeRides`, `completedRides`, `cancelledRides` (each holding at most the
one document for the ride under consideration). -/
structure Store where
  activeRides : Option RideDoc
  completedRides : Option RideDoc
  cancelledRides : Option RideDoc
deriving DecidableEq

/-- Source `handleAcceptRide` (`DriverHome.tsx`): `getDoc` re-reads the document; if
it no longer exists the handler returns without writing; if
`rideData.status !== 'pending' || rideData.driverId` it returns without
writing; otherwise `updateDoc` sets status/driverId/acceptedAt/driver. -/
def handleAcceptRide (uid : String) (now : ℕ) (s : Store) : Store :=
  match s.activeRides with
  | none => s
  | some rideData =>
    if rideData.status ≠ RideStatus.pending ∨ rideData.driverId ≠ none then s
    else { s with activeRides := some { rideData with
      status := RideStatus.accepted
      driverId := some uid
      acceptedAt := some now
      driver := some uid } }

/-- Source `handleStartRide` (`DriverHome.tsx`):
`updateDoc(rideRef, { status: 'inProgress', startedAt: now })` with no status
check; `updateDoc` on a deleted document throws and is caught (no write). -/
def handleStartRide (now : ℕ) (s : Store) : Store :=
  match s.activeRides with
  | none => s
  | some d => { s with activeRides := some { d with
      status := RideStatus.inProgress
      startedAt := some now } }

/-- First step of `handleCompleteRide` (`DriverHome.tsx`): `setDoc` a copy of
the client's `ride` object into `completedRides` under the same id, with
status `completed`, `completedAt` and `completedBy`. -/
def completeRideCopy (ride : RideDoc) (uid : String) (now : ℕ) (s : Store) : Store :=
  { s with completedRides := some { ride with
      status := RideStatus.completed
      completedAt := some now
      completedBy := some uid } }

/-- Second step of `handleCompleteRide`: `deleteDoc` from `activeRides`. -/
def completeRideDelete (s : Store) : Store := { s with activeRides := none }

/-- Source `handleCompleteRide`: the copy, then the delete. -/
def handleCompleteRide (ride : RideDoc) (uid : String) (now : ℕ) (s : Store) : Store :=
  completeRideDelete (completeRideCopy ride uid now s)

/-- First step of `handleRejectRide` (`DriverHome.tsx`): `addDoc` a copy of
the client's `ride` object into `cancelledRides` with status `cancelled`,
`cancelledAt`, `cancelledBy: 'driver'` and this driver's uid. -/
def rejectRideCopy (ride : RideDoc) (uid : String) (now : ℕ) (s : Store) : Store :=
  { s with cancelledRides := some { ride with
      status := RideStatus.cancelled
      cancelledAt := some now
      cancelledBy := some "driver"
      driverId := some uid } }

/-- Second step of `handleRejectRide`: `deleteDoc` from `activeRides`. -/
def rejectRideDelete (s : Store) : Store := { s with activeRides := none }

/-- Source `handleRejectRide`: the copy, then the delete. No status check is made
against the current document; the handler acts on the client's list entry. -/
def handleRejectRide (ride : RideDoc) (uid : String) (now : ℕ) (s : Store) : Store :=
  rejectRideDelete (rejectRideCopy ride uid now s)

/-- First step of the ride-status page's `handleCancelRide`: `addDoc` a copy
of the ride into `cancelledRides` with status `cancelled`, `cancelledAt` and
`cancelledBy: 'passenger'`. -/
def cancelRideCopy (ride : RideDoc) (now : ℕ) (s : Store) : Store :=
  { s with cancelledRides := some { ride with
      status := RideStatus.cancelled
      cancelledAt := some now
      cancelledBy := some "passenger" } }

/-- Second step of the passenger's `handleCancelRide`: `deleteDoc` from
`activeRides`. -/
def cancelRideDelete (s : Store) : Store := { s with activeRides := none }

/-- The ride-status page's `handleCancelRide`: the copy, then the delete. -/
def handleCancelRide (ride : RideDoc) (now : ℕ) (s : Store) : Store :=
  cancelRideDelete (cancelRideCopy ride now s)

/-- The status under which the ride is currently recorded: its `activeRides`
document if present, otherwise its archive copy. -/
def rideStatus (s : Store) : Option RideStatus :=
  match s.activeRides with
  | some d => some d.status
  | none =>
    match s.completedRides with
    | some d => some d.status
    | none => s.cancelledRides.map RideDoc.status

/-- The edges of the spec's ride state machine:
pending → accepted → inProgress → completed, and cancelled from pending or
accepted. -/
def allowedEdge : RideStatus → RideStatus → Bool
  | RideStatus.pending, RideStatus.accepted => true
  | RideStatus.accepted, RideStatus.inProgress => true
  | RideStatus.inProgress, RideStatus.completed => true
  | RideStatus.pending, RideStatus.cancelled => true
  | RideStatus.accepted, RideStatus.cancelled => true
  | _, _ => false

/-! ## Ride creation with retry (`RideRequest.tsx`) -/

/-- A thrown database error, reduced to its `code` string. -/
structure JsError where
  code : String
deriving DecidableEq

/-- Source `createRideWithRetry(retryCount = 0)` (`RideRequest.tsx`): attempt
`addDoc`; on an error with `code === 'resource-exhausted'` while
`retryCount < 3`, wait `2^retryCount * 1000` ms and recurse with
`retryCount + 1`; any other error — or a resource-exhausted error once
`retryCount` reaches 3 — is rethrown. `outcomes k` is the result of the
`addDoc` call made with `retryCount = k`; the returned list collects the
waits (in seconds) taken before each retry. -/
def createRideWithRetry (outcomes : ℕ → Except JsError String) (retryCount : ℕ) :
    Except JsError String × List ℕ :=
  match outcomes retryCount with
  | Except.ok docId => (Except.ok docId, [])
  | Except.error e =>
    if hc : e.code = "resource-exhausted" then
      if hr : retryCount < 3 then
        let r := createRideWithRetry outcomes (retryCount + 1)
        (r.1, 2 ^ retryCount :: r.2)
      else (Except.error e, [])
    else (Except.error e, [])
termination_by 4 - retryCount
decreasing_by omega

/-- Is this attempt outcome a failure with the retryable code? -/
def isResourceExhausted : Except JsError String → Bool
  | Except.error e => e.code == "resource-exhausted"
  | Except.ok _ => false

/-- Number of retries the policy performs: the index of the first attempt
whose outcome is not a resource-exhausted error, capped at 3. -/
def retriesSpec (outcomes : ℕ → Except JsError String) : ℕ :=
  if ¬ isResourceExhausted (outcomes 0) then 0
  else if ¬ isResourceExhausted (outcomes 1) then 1
  else if ¬ isResourceExhausted (outcomes 2) then 2
  else 3

/-! ## Concrete values used by the worked examples and witnesses -/

/-- The spec's worked-example category: base 5, per-km 2, minimum 7, with
rain multiplier 2, peak multiplier 1.5 and the peak window 07:00–09:00. -/
def exampleCategory : VehicleCategory :=
  { basePrice := 5
    pricePerKm := 2
    minPrice := 7
    dynamicPricing :=
      { rainMultiplier := 2
        peakHoursMultiplier := 3/2
        peakHours := [{ start := "07:00", endStr := "09:00" }] } }

/-- The example peak window converted to minutes-since-midnight. -/
def exampleWindows : List SpecWindow := [{ startM := 420, endM := 540 }]

/-- A pricing-factors value used by the worked example: no rain, 10:30,
500 m. -/
def exampleFactors : PricingFactors :=
  { isRaining := false
    currentTime := ⟨10, 30, 0, 0, 1, 1, 2024⟩
    distance := 500 }

/-- A category with no peak windows, rain multiplier 2, base 10, minimum 7,
used to show the effect of rain at distance 0. -/
def noPeakRainCategory : VehicleCategory :=
  { basePrice := 10
    pricePerKm := 2
    minPrice := 7
    dynamicPricing :=
      { rainMultiplier := 2
        peakHoursMultiplier := 3/2
        peakHours := [] } }

/-- A freshly created ride document: pending, no driver. -/
def pendingRideDoc : RideDoc :=
  { status := RideStatus.pending
    driverId := none
    driver := none
    acceptedAt := none
    startedAt := none
    completedAt := none
    completedBy := none
    cancelledAt := none
    cancelledBy := none }

/-- A ride document accepted by driver `driverB`. -/
def acceptedRideDoc : RideDoc :=
  { pendingRideDoc with
    status := RideStatus.accepted
    driverId := some "driverB"
    driver := some "driverB"
    acceptedAt := some 1 }

/-- A ride document whose trip has started (driver `driverB`). -/
def inProgressRideDoc : RideDoc :=
  { acceptedRideDoc with
    status := RideStatus.inProgress
    startedAt := some 2 }

/-- A store holding just the given active document. -/
def soloStore (d : RideDoc) : Store :=
  { activeRides := some d
    completedRides := none
    cancelledRides := none }

/-! ## Theorems -/

lemma round2_mono {x y : ℚ} (h : x ≤ y) : round2 x ≤ round2 y := by
  unfold round2 jsMathRound
  have hf : Int.floor (x * 100 + 1/2) ≤ Int.floor (y * 100 + 1/2) :=
    Int.floor_le_floor (by linarith)
  have hc : ((Int.floor (x * 100 + 1/2) : ℚ)) ≤ ((Int.floor (y * 100 + 1/2) : ℚ)) :=
    Int.cast_le.mpr hf
  linarith

lemma round2_hundredths (n : ℤ) : round2 ((n : ℚ) / 100) = (n : ℚ) / 100 := by
  unfold round2 jsMathRound
  have h1 : (n : ℚ) / 100 * 100 + 1/2 = (n : ℚ) + 1/2 := by field_simp
  rw [h1, Int.floor_int_add]
  norm_num

lemma periodContains_window (cur : ℕ) (p : PeakHourPeriod) (w : SpecWindow)
    (hs : hhmmToMinutes p.start = some w.startM)
    (he : hhmmToMinutes p.endStr = some w.endM) :
    periodContains cur p = decide (w.startM ≤ cur ∧ cur ≤ w.endM) := by
  unfold periodContains
  rw [hs, he]

lemma any_periodContains (cur : ℕ) (ps : List PeakHourPeriod) (ws : List SpecWindow)
    (h : ps.map (fun p => (hhmmToMinutes p.start, hhmmToMinutes p.endStr)) =
      ws.map (fun w => (some w.startM, some w.endM))) :
    ps.any (periodContains cur) = specIsPeak cur ws := by
  induction ps generalizing ws with
  | nil =>
    cases ws with
    | nil => rfl
    | cons w ws => simp at h
  | cons p ps ih =>
    cases ws with
    | nil => simp at h
    | cons w ws =>
      simp only [List.map_cons, List.cons.injEq, Prod.mk.injEq] at h
      obtain ⟨⟨hs, he⟩, htail⟩ := h
      simp only [List.any_cons, specIsPeak] at ih ⊢
      rw [periodContains_window cur p w hs he, ih ws htail]

/-- Claim C1: `calculateDynamicPrice` returns round-to-2-decimals of
`max(minPrice, (basePrice + (distance/1000)·pricePerKm) · P · R)` where `P`
is the peak multiplier exactly when the current HH:mm time, as
minutes-since-midnight, lies in some configured window (inclusive on both
ends) and 1 otherwise, `R` is the rain multiplier when raining and 1
otherwise, peak applied before rain. The hypothesis states that `ws` is the
configured window list converted to minutes-since-midnight. -/
theorem calculateDynamicPrice_meets_spec (category : VehicleCategory)
    (ws : List SpecWindow) (f : PricingFactors)
    (h : category.dynamicPricing.peakHours.map
        (fun p => (hhmmToMinutes p.start, hhmmToMinutes p.endStr)) =
      ws.map (fun w => (some w.startM, some w.endM))) :
    calculateDynamicPrice category f = dynamicPriceSpec category ws f := by
  have hpk := any_periodContains (f.currentTime.hours * 60 + f.currentTime.minutes)
    category.dynamicPricing.peakHours ws h
  simp only [calculateDynamicPrice, dynamicPriceSpec, JSDate.getHours, JSDate.getMinutes, hpk]
  cases hb : specIsPeak (f.currentTime.hours * 60 + f.currentTime.minutes) ws <;>
    cases hr : f.isRaining <;>
      simp [round2, max_comm, hb, hr, mul_one]

theorem calculateDynamicPrice_meets_spec_witness :
    calculateDynamicPrice exampleCategory
        { isRaining := true, currentTime := ⟨8, 0, 0, 0, 1, 1, 2024⟩, distance := 5000 } =
      dynamicPriceSpec exampleCategory exampleWindows
        { isRaining := true, currentTime := ⟨8, 0, 0, 0, 1, 1, 2024⟩, distance := 5000 } :=
  calculateDynamicPrice_meets_spec exampleCategory exampleWindows _ (by decide)


/-- Claim C5: for every distance in meters `d`, per-km rate `r` and base
price `b`, `calculatePrice d r b` is `b + (d/1000)·r` rounded to 2 decimal
places — and the result is a whole number of hundredths. -/
theorem calculatePrice_meets_spec (d r b : ℚ) :
    calculatePrice d r b = calculatePriceSpec d r b ∧
    ∃ n : ℤ, calculatePrice d r b * 100 = (n : ℚ) := by
  refine ⟨rfl, jsMathRound ((b + d / 1000 * r) * 100), ?_⟩
  show ((jsMathRound ((b + d / 1000 * r) * 100) : ℚ) / 100) * 100 = _
  rw [div_mul_cancel₀]
  norm_num

/-- Claim C6's general clause taken unconditionally is false on the code:
with rain, a distance of 0 prices at basePrice times the rain multiplier
(20), not at the base price after the minimum-price floor (10). -/
theorem dynamicPrice_zero_distance_rain_counterexample :
    calculateDynamicPrice noPeakRainCategory
        { isRaining := true, currentTime := ⟨12, 0, 0, 0, 1, 1, 2024⟩, distance := 0 } = 20 ∧
    round2 (max noPeakRainCategory.basePrice noPeakRainCategory.minPrice) = 10 ∧
    (20 : ℚ) ≠ 10 := by
  refine ⟨?_, ?_, by norm_num⟩
  · show ((jsMathRound ((max ((10 + 0 / 1000 * 2) * 2) (7:ℚ)) * 100) : ℚ) / 100) = 20
    norm_num [jsMathRound, max_def]
  · show ((jsMathRound ((max (10:ℚ) 7) * 100) : ℚ) / 100) = 10
    norm_num [jsMathRound, max_def]

/-- Claim C6 amended: with distance 0, no rain and the current time outside every
configured peak window, the dynamic price is the category base price after
the minimum-price floor (rounded to 2 decimals); and on the spec's worked
example (base 5, per-km 2, min 7, distance 500 m, 10:30, no rain) the raw
price 5 + 1 = 6 is floored to the minimum, giving 7. -/
theorem dynamicPrice_zero_distance_and_example :
    (∀ (category : VehicleCategory) (f : PricingFactors),
      f.distance = 0 → f.isRaining = false →
      category.dynamicPricing.peakHours.any
        (periodContains (f.currentTime.getHours * 60 + f.currentTime.getMinutes)) = false →
      calculateDynamicPrice category f = round2 (max category.basePrice category.minPrice)) ∧
    calculateDynamicPrice exampleCategory exampleFactors = 7 := by
  constructor
  · intro category f hd hr hp
    simp only [calculateDynamicPrice, hd, hr, hp, round2, Bool.false_eq_true, if_false]
    norm_num
  · show ((jsMathRound ((max (5 + 500 / 1000 * 2) (7:ℚ)) * 100) : ℚ) / 100) = 7
    norm_num [jsMathRound, max_def]

theorem dynamicPrice_zero_distance_and_example_witness :
    calculateDynamicPrice exampleCategory
        { isRaining := false, currentTime := ⟨12, 0, 0, 0, 1, 1, 2024⟩, distance := 0 } =
      round2 (max exampleCategory.basePrice exampleCategory.minPrice) :=
  dynamicPrice_zero_distance_and_example.1 exampleCategory
    { isRaining := false, currentTime := ⟨12, 0, 0, 0, 1, 1, 2024⟩, distance := 0 }
    rfl rfl (by decide)

/-- Claim C8: the returned price is at least `round2 minPrice` whenever
`minPrice` is non-negative, and at least `minPrice` itself whenever
`minPrice` is a whole number of hundredths (at most two decimal places). -/
theorem dynamicPrice_at_least_minPrice (category : VehicleCategory) (f : PricingFactors) :
    (0 ≤ category.minPrice →
      round2 category.minPrice ≤ calculateDynamicPrice category f) ∧
    (∀ n : ℤ, category.minPrice = (n : ℚ) / 100 →
      category.minPrice ≤ calculateDynamicPrice category f) := by
  have key : round2 category.minPrice ≤ calculateDynamicPrice category f := by
    simp only [calculateDynamicPrice]
    exact round2_mono (le_max_right _ _)
  refine ⟨fun _ => key, fun n hn => ?_⟩
  calc category.minPrice = round2 category.minPrice := by rw [hn, round2_hundredths]
    _ ≤ _ := key

theorem dynamicPrice_at_least_minPrice_witness :
    round2 exampleCategory.minPrice ≤ calculateDynamicPrice exampleCategory exampleFactors ∧
    exampleCategory.minPrice ≤ calculateDynamicPrice exampleCategory exampleFactors :=
  ⟨(dynamicPrice_at_least_minPrice exampleCategory exampleFactors).1 (by norm_num [exampleCategory]),
   (dynamicPrice_at_least_minPrice exampleCategory exampleFactors).2 700 (by norm_num [exampleCategory])⟩

/-- Claim C9: a window whose end is earlier than its start (both as
minutes-since-midnight, an overnight window) classifies no time as peak;
and when every configured window is overnight, the peak multiplier is never
applied. -/
theorem overnight_window_never_peak :
    (∀ (p : PeakHourPeriod) (sM eM cur : ℕ),
      hhmmToMinutes p.start = some sM → hhmmToMinutes p.endStr = some eM → eM < sM →
      periodContains cur p = false) ∧
    (∀ (category : VehicleCategory) (f : PricingFactors),
      (∀ p ∈ category.dynamicPricing.peakHours, ∃ sM eM,
        hhmmToMinutes p.start = some sM ∧ hhmmToMinutes p.endStr = some eM ∧ eM < sM) →
      calculateDynamicPrice category f =
        round2 (max ((category.basePrice + f.distance / 1000 * category.pricePerKm) *
          (if f.isRaining then category.dynamicPricing.rainMultiplier else 1))
          category.minPrice)) := by
  have base : ∀ (p : PeakHourPeriod) (sM eM cur : ℕ),
      hhmmToMinutes p.start = some sM → hhmmToMinutes p.endStr = some eM → eM < sM →
      periodContains cur p = false := by
    intro p sM eM cur hs he hlt
    unfold periodContains
    rw [hs, he]
    simp only [decide_eq_false_iff_not]
    omega
  refine ⟨base, ?_⟩
  intro category f hov
  have hany : category.dynamicPricing.peakHours.any
      (periodContains (f.currentTime.getHours * 60 + f.currentTime.getMinutes)) = false := by
    rw [List.any_eq_false]
    intro p hp
    obtain ⟨sM, eM, hs, he, hlt⟩ := hov p hp
    simp [base p sM eM _ hs he hlt]
  simp only [calculateDynamicPrice, hany, Bool.false_eq_true, if_false]
  cases hr : f.isRaining <;> simp [round2, mul_one]

theorem overnight_window_never_peak_witness :
    periodContains 300 { start := "22:00", endStr := "06:00" } = false :=
  overnight_window_never_peak.1 { start := "22:00", endStr := "06:00" } 1320 360 300
    (by decide) (by decide) (by decide)

/-- Claim C10: `calculateDynamicPrice` reads the current time only through
`getHours` and `getMinutes`; two `Date`s equal in hour and minute (whatever
their seconds, milliseconds, day, month, year) yield the same price on
otherwise identical inputs. -/
theorem dynamicPrice_depends_only_on_hour_minute (category : VehicleCategory)
    (f1 f2 : PricingFactors) (hr : f1.isRaining = f2.isRaining)
    (hd : f1.distance = f2.distance)
    (hh : f1.currentTime.getHours = f2.currentTime.getHours)
    (hm : f1.currentTime.getMinutes = f2.currentTime.getMinutes) :
    calculateDynamicPrice category f1 = calculateDynamicPrice category f2 := by
  simp only [calculateDynamicPrice, hr, hd, hh, hm]

theorem dynamicPrice_depends_only_on_hour_minute_witness :
    calculateDynamicPrice exampleCategory
        { isRaining := true, currentTime := ⟨8, 0, 0, 0, 1, 1, 2024⟩, distance := 5000 } =
      calculateDynamicPrice exampleCategory
        { isRaining := true, currentTime := ⟨8, 0, 59, 999, 25, 12, 2031⟩, distance := 5000 } :=
  dynamicPrice_depends_only_on_hour_minute exampleCategory _ _ rfl rfl rfl rfl


/-- Claim C2: the accept operation writes `accepted` and the driver's id
only when the re-read document still exists with status `pending` and a null
`driverId`; otherwise it performs no write and the store is unchanged. -/
theorem handleAcceptRide_guard (uid : String) (now : ℕ) (s : Store) :
    (∀ d, s.activeRides = some d → d.status = RideStatus.pending → d.driverId = none →
      handleAcceptRide uid now s = { s with activeRides := some { d with
        status := RideStatus.accepted
        driverId := some uid
        acceptedAt := some now
        driver := some uid } }) ∧
    ((∀ d, s.activeRides = some d → d.status ≠ RideStatus.pending ∨ d.driverId ≠ none) →
      handleAcceptRide uid now s = s) := by
  constructor
  · intro d hd hs hdr
    simp [handleAcceptRide, hd, hs, hdr]
  · intro h
    cases hd : s.activeRides with
    | none => simp [handleAcceptRide, hd]
    | some d =>
      simp only [handleAcceptRide, hd]
      rw [if_pos (h d hd)]

theorem handleAcceptRide_guard_witness :
    handleAcceptRide "driverA" 3 (soloStore pendingRideDoc) =
      { soloStore pendingRideDoc with activeRides := some { pendingRideDoc with
        status := RideStatus.accepted
        driverId := some "driverA"
        acceptedAt := some 3
        driver := some "driverA" } } ∧
    handleAcceptRide "driverA" 3 (soloStore acceptedRideDoc) = soloStore acceptedRideDoc :=
  ⟨(handleAcceptRide_guard "driverA" 3 (soloStore pendingRideDoc)).1 pendingRideDoc rfl rfl rfl,
   (handleAcceptRide_guard "driverA" 3 (soloStore acceptedRideDoc)).2
     (fun d hd => by
       rw [(Option.some_inj.mp hd).symm]
       decide)⟩

/-- Claim C3 as stated is false on the code: `handleRejectRide` makes no
check against the current document, so a driver whose offer list is stale
(still showing the ride as pending) cancels a ride that is already
`inProgress`; the recorded transition is inProgress → cancelled, which is
outside the state machine. -/
theorem rejectRide_cancels_inProgress :
    rideStatus (soloStore inProgressRideDoc) = some RideStatus.inProgress ∧
    rideStatus (handleRejectRide pendingRideDoc "driverA" 5 (soloStore inProgressRideDoc)) =
      some RideStatus.cancelled ∧
    allowedEdge RideStatus.inProgress RideStatus.cancelled = false := by
  decide

/-- Claim C3 amended: whenever the document's current status matches the
status the acting client saw (the UI guard: accept and reject act on rides
seen pending, start on a ride seen accepted, complete on a ride seen
inProgress, the passenger cancel on a ride seen pending), every transition
performed follows pending → accepted → inProgress → completed, with
cancelled from pending or accepted. -/
theorem transitions_follow_state_machine (uid : String) (now : ℕ) (s : Store)
    (d stale : RideDoc) (hd : s.activeRides = some d)
    (hcomp : s.completedRides = none) :
    rideStatus s = some d.status ∧
    (d.status = RideStatus.pending → d.driverId = none →
      rideStatus (handleAcceptRide uid now s) = some RideStatus.accepted ∧
      allowedEdge RideStatus.pending RideStatus.accepted = true) ∧
    (d.status = RideStatus.accepted →
      rideStatus (handleStartRide now s) = some RideStatus.inProgress ∧
      allowedEdge RideStatus.accepted RideStatus.inProgress = true) ∧
    (d.status = RideStatus.inProgress →
      rideStatus (handleCompleteRide stale uid now s) = some RideStatus.completed ∧
      allowedEdge RideStatus.inProgress RideStatus.completed = true) ∧
    (d.status = RideStatus.pending →
      rideStatus (handleRejectRide stale uid now s) = some RideStatus.cancelled ∧
      allowedEdge RideStatus.pending RideStatus.cancelled = true) ∧
    (d.status = RideStatus.pending →
      rideStatus (handleCancelRide stale now s) = some RideStatus.cancelled ∧
      allowedEdge RideStatus.pending RideStatus.cancelled = true) := by
  refine ⟨by simp [rideStatus, hd], fun hs hdr => ⟨?_, rfl⟩, fun hs => ⟨?_, rfl⟩,
    fun hs => ⟨?_, rfl⟩, fun hs => ⟨?_, rfl⟩, fun hs => ⟨?_, rfl⟩⟩
  · simp [handleAcceptRide, hd, hs, hdr, rideStatus]
  · simp [handleStartRide, hd, rideStatus]
  · simp [handleCompleteRide, completeRideCopy, completeRideDelete, rideStatus]
  · simp [handleRejectRide, rejectRideCopy, rejectRideDelete, rideStatus, hcomp]
  · simp [handleCancelRide, cancelRideCopy, cancelRideDelete, rideStatus, hcomp]

theorem transitions_follow_state_machine_witness :
    rideStatus (handleAcceptRide "driverA" 3 (soloStore pendingRideDoc)) =
      some RideStatus.accepted ∧
    rideStatus (handleStartRide 4 (soloStore acceptedRideDoc)) =
      some RideStatus.inProgress ∧
    rideStatus (handleCompleteRide inProgressRideDoc "driverB" 9 (soloStore inProgressRideDoc)) =
      some RideStatus.completed ∧
    rideStatus (handleCancelRide pendingRideDoc 6 (soloStore pendingRideDoc)) =
      some RideStatus.cancelled :=
  ⟨((transitions_follow_state_machine "driverA" 3 _ pendingRideDoc pendingRideDoc
      rfl rfl).2.1 rfl rfl).1,
   ((transitions_follow_state_machine "driverB" 4 _ acceptedRideDoc acceptedRideDoc
      rfl rfl).2.2.1 rfl).1,
   ((transitions_follow_state_machine "driverB" 9 _ inProgressRideDoc inProgressRideDoc
      rfl rfl).2.2.2.1 rfl).1,
   ((transitions_follow_state_machine "driverA" 6 _ pendingRideDoc pendingRideDoc
      rfl rfl).2.2.2.2.2 rfl).1⟩

/-- Claim C4: completion and cancellation each run copy-to-archive then
delete-from-active as two separate writes with no atomicity: stopping after
the copy leaves the ride in both the active and the archive collection (the
copy already carrying the terminal status and timestamp); running both
leaves it only in the archive. -/
theorem archive_then_delete_nonatomic (ride : RideDoc) (uid : String) (now : ℕ)
    (s : Store) (d : RideDoc) (hd : s.activeRides = some d) :
    handleCompleteRide ride uid now s = completeRideDelete (completeRideCopy ride uid now s) ∧
    (completeRideCopy ride uid now s).activeRides = some d ∧
    (completeRideCopy ride uid now s).completedRides =
      some { ride with status := RideStatus.completed
                       completedAt := some now
                       completedBy := some uid } ∧
    (handleCompleteRide ride uid now s).activeRides = none ∧
    (handleCompleteRide ride uid now s).completedRides =
      some { ride with status := RideStatus.completed
                       completedAt := some now
                       completedBy := some uid } ∧
    handleCancelRide ride now s = cancelRideDelete (cancelRideCopy ride now s) ∧
    (cancelRideCopy ride now s).activeRides = some d ∧
    (cancelRideCopy ride now s).cancelledRides =
      some { ride with status := RideStatus.cancelled
                       cancelledAt := some now
                       cancelledBy := some "passenger" } ∧
    (handleCancelRide ride now s).activeRides = none ∧
    (handleCancelRide ride now s).cancelledRides =
      some { ride with status := RideStatus.cancelled
                       cancelledAt := some now
                       cancelledBy := some "passenger" } :=
  ⟨rfl, hd, rfl, rfl, rfl, rfl, hd, rfl, rfl, rfl⟩

theorem archive_then_delete_nonatomic_witness :
    (completeRideCopy inProgressRideDoc "driverB" 9 (soloStore inProgressRideDoc)).activeRides =
      some inProgressRideDoc ∧
    (handleCompleteRide inProgressRideDoc "driverB" 9
      (soloStore inProgressRideDoc)).activeRides = none :=
  ⟨(archive_then_delete_nonatomic inProgressRideDoc "driverB" 9 _ inProgressRideDoc rfl).2.1,
   (archive_then_delete_nonatomic inProgressRideDoc "driverB" 9 _ inProgressRideDoc
     rfl).2.2.2.1⟩

lemma createRideWithRetry_stop (outcomes : ℕ → Except JsError String) (k : ℕ)
    (h : isResourceExhausted (outcomes k) = false) :
    createRideWithRetry outcomes k = (outcomes k, []) := by
  unfold createRideWithRetry
  cases ho : outcomes k with
  | ok d => rfl
  | error e =>
    rw [ho] at h
    simp only [isResourceExhausted, beq_eq_false_iff_ne, ne_eq] at h
    simp [h]

lemma createRideWithRetry_exhaust (outcomes : ℕ → Except JsError String) (k : ℕ)
    (hk : 3 ≤ k) :
    createRideWithRetry outcomes k = (outcomes k, []) := by
  unfold createRideWithRetry
  cases ho : outcomes k with
  | ok d => rfl
  | error e =>
    by_cases hc : e.code = "resource-exhausted"
    · dsimp only
      rw [dif_pos hc, dif_neg (by omega)]
    · dsimp only
      rw [dif_neg hc]

lemma createRideWithRetry_retry (outcomes : ℕ → Except JsError String) (k : ℕ)
    (hk : k < 3) (h : isResourceExhausted (outcomes k) = true) :
    createRideWithRetry outcomes k =
      ((createRideWithRetry outcomes (k+1)).1,
        2 ^ k :: (createRideWithRetry outcomes (k+1)).2) := by
  conv_lhs => rw [createRideWithRetry]
  cases ho : outcomes k with
  | ok d =>
    rw [ho] at h
    simp [isResourceExhausted] at h
  | error e =>
    rw [ho] at h
    simp only [isResourceExhausted, beq_iff_eq] at h
    dsimp only
    rw [dif_pos h, dif_pos hk]

/-- Claim C7: the ride-creation write path retries only resource-exhausted
failures, at most 3 times, sleeping 2^retryCount seconds before each retry;
the run is fully characterised by `retriesSpec` (first non-retryable attempt,
capped at 3), whose outcome — success, other error, or resource-exhausted
with the budget spent — is returned to the caller. -/
theorem createRideWithRetry_policy (outcomes : ℕ → Except JsError String) :
    createRideWithRetry outcomes 0 =
      (outcomes (retriesSpec outcomes),
        (List.range (retriesSpec outcomes)).map (fun i => 2 ^ i)) ∧
    (∀ e, outcomes 0 = Except.error e → e.code ≠ "resource-exhausted" →
      createRideWithRetry outcomes 0 = (Except.error e, [])) ∧
    retriesSpec outcomes ≤ 3 := by
  have hprop : ∀ e, outcomes 0 = Except.error e → e.code ≠ "resource-exhausted" →
      createRideWithRetry outcomes 0 = (Except.error e, []) := by
    intro e he hc
    have h0 : isResourceExhausted (outcomes 0) = false := by
      rw [he]
      simp [isResourceExhausted, hc]
    rw [createRideWithRetry_stop outcomes 0 h0, he]
  refine ⟨?_, hprop, by simp only [retriesSpec]; split_ifs <;> omega⟩
  by_cases h0 : isResourceExhausted (outcomes 0) = true
  · by_cases h1 : isResourceExhausted (outcomes 1) = true
    · by_cases h2 : isResourceExhausted (outcomes 2) = true
      · have n3 : retriesSpec outcomes = 3 := by simp [retriesSpec, h0, h1, h2]
        rw [n3, createRideWithRetry_retry outcomes 0 (by omega) h0,
          createRideWithRetry_retry outcomes 1 (by omega) h1,
          createRideWithRetry_retry outcomes 2 (by omega) h2,
          createRideWithRetry_exhaust outcomes 3 (by omega)]
        simp [List.range_succ]
      · have hf2 : isResourceExhausted (outcomes 2) = false := by simpa using h2
        have n2 : retriesSpec outcomes = 2 := by simp [retriesSpec, h0, h1, hf2]
        rw [n2, createRideWithRetry_retry outcomes 0 (by omega) h0,
          createRideWithRetry_retry outcomes 1 (by omega) h1,
          createRideWithRetry_stop outcomes 2 hf2]
        simp [List.range_succ]
    · have hf1 : isResourceExhausted (outcomes 1) = false := by simpa using h1
      have n1 : retriesSpec outcomes = 1 := by simp [retriesSpec, h0, hf1]
      rw [n1, createRideWithRetry_retry outcomes 0 (by omega) h0,
        createRideWithRetry_stop outcomes 1 hf1]
      simp [List.range_succ]
  · have hf0 : isResourceExhausted (outcomes 0) = false := by simpa using h0
    have n0 : retriesSpec outcomes = 0 := by simp [retriesSpec, hf0]
    rw [n0, createRideWithRetry_stop outcomes 0 hf0]
    simp

theorem createRideWithRetry_policy_witness :
    createRideWithRetry (fun _ => Except.error { code := "permission-denied" }) 0 =
      (Except.error { code := "permission-denied" }, []) :=
  (createRideWithRetry_policy _).2.1 { code := "permission-denied" } rfl (by decide)
end RideApp
